import Mathlib

/-!
Verification of the c10 storage core (`c10/core/StorageImpl.cpp`): the
storage handle data-pointer access contract (read-only vs. mutable access
with lazy copy-on-write materialization), the device-scoped extension
registry for custom storage construction, and the `make_storage_impl`
factory.

The embedding follows the source file directly.  Machinery declared only
in the header (`StorageImpl.h`) — the storage constructors, the access
flags maintenance and `maybe_materialize_cow` — is modelled from the
specification, with each such definition marked in its doc comment.
External allocation and materialization effects are threaded through an
explicit `World` state holding a fresh-address counter and a count of
materializations performed.
-/

namespace C10Storage

/-- Device domains.  The C++ enum `c10::DeviceType` has many members; a
representative closed subset suffices for the registry and factory logic,
which only compare domains for equality and against the allowlist. -/
inductive DeviceType where
  | cpu
  | cuda
  | mps
  | privateUse1
deriving DecidableEq

/-- Embedding of `at::Device`: only the device type participates in the
storage construction logic. -/
structure Device where
  deviceType : DeviceType
deriving DecidableEq

/-- Embedding of `at::DataPtr`: an address (0 encodes the null pointer,
matching the `data_ptr != nullptr` comparison in the source) together with
the copy-on-write tag carried by the pointer context. -/
structure DataPtr where
  addr : Nat
  isCow : Bool
deriving DecidableEq

/-- Embedding of `DataPtr::get` and `DataPtr::mutable_get`: both expose
the held address. -/
def DataPtr.get (p : DataPtr) : Nat := p.addr

/-- External allocator capability: a map from a requested byte size to a
buffer handle. -/
abbrev Allocator := Nat → DataPtr

/-- External effect state: the next fresh address the external
allocation/materialization capability will hand out, and how many
materializations have been performed.  The freshness invariant used by
the copy-on-write theorems is that every live buffer address is below
`nextAddr`. -/
structure World where
  nextAddr : Nat
  materializeCount : Nat
deriving DecidableEq

/-- Embedding of `c10::StorageImpl`: the owned buffer, declared byte
size, producing allocator, resizability, and the two access-control
flags used by `mutable_data_ptr` / `mutable_data` in the source. -/
structure StorageImpl where
  data_ptr_ : DataPtr
  size_bytes_ : Nat
  allocator_ : Allocator
  resizable_ : Bool
  has_data_ptr_check_ : Bool
  throw_on_mutable_data_ptr_ : Bool

/-- Error raised by `throwNullDataPtrError` in the source (via
`TORCH_CHECK(false, ...)`). -/
inductive StorageError where
  | NullDataAccessError
deriving DecidableEq

/-- Embedding of `throwNullDataPtrError`: the error value it raises. -/
def throwNullDataPtrError : StorageError := .NullDataAccessError

/-- Modelled from the spec: the spec access modes.  `StorageImpl.h` is
not part of the provided source; the spec describes the handle state as
one of Normal / ReadOnlyStrict / CopyOnWritePending, realized by the
`throw_on_mutable_data_ptr_` flag and the copy-on-write tag of the held
buffer. -/
inductive AccessMode where
  | Normal
  | ReadOnlyStrict
  | CopyOnWritePending
deriving DecidableEq

/-- Modelled from the spec: the access mode encoded by the handle flags.
The throw flag dominates (mutable access is forbidden entirely); else a
copy-on-write buffer means materialization is pending; else Normal. -/
def StorageImpl.accessMode (s : StorageImpl) : AccessMode :=
  if s.throw_on_mutable_data_ptr_ then .ReadOnlyStrict
  else if s.data_ptr_.isCow then .CopyOnWritePending
  else .Normal

/-- Modelled from the spec: the flag invariant maintained by
`StorageImpl.h` (not in the provided source): the fast-path guard
`has_data_ptr_check_` is set exactly when some check applies, i.e. when
the throw flag is set or the buffer is copy-on-write. -/
def StorageImpl.wellformed (s : StorageImpl) : Prop :=
  s.has_data_ptr_check_ = (s.throw_on_mutable_data_ptr_ || s.data_ptr_.isCow)

instance (s : StorageImpl) : Decidable s.wellformed := by
  unfold StorageImpl.wellformed; infer_instance

/-- Modelled from the spec: `maybe_materialize_cow` (declared in
`StorageImpl.h`, not in the provided source).  If the held buffer is
copy-on-write, invoke the external materialization capability: allocate a
new physically-exclusive buffer (a fresh address from the world), replace
the handle buffer with it, and reset the access state to Normal (the new
buffer is not copy-on-write, and the fast-path guard is refreshed from
the remaining flags).  Otherwise do nothing. -/
def StorageImpl.maybe_materialize_cow (s : StorageImpl) (w : World) :
    StorageImpl × World :=
  if s.data_ptr_.isCow then
    ({ s with
        data_ptr_ := { addr := w.nextAddr, isCow := false },
        has_data_ptr_check_ := s.throw_on_mutable_data_ptr_ },
     { nextAddr := w.nextAddr + 1, materializeCount := w.materializeCount + 1 })
  else (s, w)

/-- Embedding of `StorageImpl::mutable_data_ptr`: if the fast-path guard
is set, first the throw flag raises `NullDataAccessError`, otherwise
copy-on-write materialization may run; then the held buffer is returned.
A raised error leaves handle and world unchanged (the C++ exception
propagates before any mutation). -/
def StorageImpl.mutable_data_ptr (s : StorageImpl) (w : World) :
    Except StorageError DataPtr × StorageImpl × World :=
  if s.has_data_ptr_check_ then
    if s.throw_on_mutable_data_ptr_ then
      (.error throwNullDataPtrError, s, w)
    else
      let sw := s.maybe_materialize_cow w
      (.ok sw.1.data_ptr_, sw.1, sw.2)
  else
    (.ok s.data_ptr_, s, w)

/-- Embedding of `StorageImpl::data_ptr` (const): returns the held
buffer; being const, the handle is returned unchanged. -/
def StorageImpl.data_ptr (s : StorageImpl) : DataPtr × StorageImpl :=
  (s.data_ptr_, s)

/-- Embedding of `StorageImpl::data` (const): returns the held buffer
address; being const, the handle is returned unchanged. -/
def StorageImpl.data (s : StorageImpl) : Nat × StorageImpl :=
  (s.data_ptr_.get, s)

/-- Embedding of `StorageImpl::mutable_data`: same check block as
`mutable_data_ptr` (duplicated in the source), returning the buffer
address via `mutable_get`. -/
def StorageImpl.mutable_data (s : StorageImpl) (w : World) :
    Except StorageError Nat × StorageImpl × World :=
  if s.has_data_ptr_check_ then
    if s.throw_on_mutable_data_ptr_ then
      (.error throwNullDataPtrError, s, w)
    else
      let sw := s.maybe_materialize_cow w
      (.ok sw.1.data_ptr_.get, sw.1, sw.2)
  else
    (.ok s.data_ptr_.get, s, w)

/-- Embedding of `StorageImplCreateHelper`: a custom storage builder
taking byte size, buffer, allocator and resizability. -/
abbrev Builder := Nat → DataPtr → Allocator → Bool → StorageImpl

/-- Embedding of the `StorageImplCreate` array: a slot per device type,
empty (`none`) meaning no registered builder, matching the null function
pointer in the source. -/
abbrev Registry := DeviceType → Option Builder

/-- The registry at process start: every slot empty. -/
def initRegistry : Registry := fun _ => none

/-- Embedding of `DeviceTypeAllowList`: currently only PrivateUse1. -/
def DeviceTypeAllowList : List DeviceType := [.privateUse1]

/-- Errors raised by `SetStorageImplCreate` via `TORCH_CHECK`: the
allowlist rejection and the duplicate-registration rejection. -/
inductive RegistryError where
  | DomainNotAllowedError
  | AlreadyRegisteredError
deriving DecidableEq

/-- Embedding of `SetStorageImplCreate`: allowlist verification first,
then the duplicate-registration check, then the slot write.  A raised
error leaves the registry unchanged (in state-passing form: no new
registry is produced). -/
def SetStorageImplCreate (reg : Registry) (t : DeviceType) (fptr : Builder) :
    Except RegistryError Registry :=
  if t ∈ DeviceTypeAllowList then
    match reg t with
    | some _ => .error .AlreadyRegisteredError
    | none => .ok (fun u => if u = t then some fptr else reg u)
  else
    .error .DomainNotAllowedError

/-- Embedding of `GetStorageImplCreate`: read the slot for the device
type. -/
def GetStorageImplCreate (reg : Registry) (t : DeviceType) : Option Builder :=
  reg t

/-- Modelled from the spec: the `StorageImpl` constructor taking a
pre-supplied buffer (declared in `StorageImpl.h`, not in the provided
source).  The handle takes ownership of the buffer as-is; the access
flags start clear. -/
def StorageImpl.mkWithBuffer (size_bytes : Nat) (dp : DataPtr)
    (alloc : Allocator) (resizable : Bool) : StorageImpl :=
  { data_ptr_ := dp
    size_bytes_ := size_bytes
    allocator_ := alloc
    resizable_ := resizable
    has_data_ptr_check_ := false
    throw_on_mutable_data_ptr_ := false }

/-- Modelled from the spec: the `StorageImpl` constructor without a
buffer (declared in `StorageImpl.h`, not in the provided source).  It
immediately obtains a fresh buffer of the requested size from the given
allocator. -/
def StorageImpl.mkAlloc (size_bytes : Nat) (alloc : Allocator)
    (resizable : Bool) : StorageImpl :=
  StorageImpl.mkWithBuffer size_bytes (alloc size_bytes) alloc resizable

/-- The default-construction tail of `make_storage_impl`: adopt a
non-null pre-supplied buffer, otherwise construct through the allocator
(the `data_ptr != nullptr` branch of the source). -/
def defaultConstructStorage (size_bytes : Nat) (dp : DataPtr)
    (alloc : Allocator) (resizable : Bool) : StorageImpl :=
  if dp.addr ≠ 0 then StorageImpl.mkWithBuffer size_bytes dp alloc resizable
  else StorageImpl.mkAlloc size_bytes alloc resizable

/-- Embedding of `make_storage_impl`: consult the registry only when a
device is supplied; delegate to a found builder; otherwise default
construction. -/
def make_storage_impl (reg : Registry) (size_bytes : Nat) (dp : DataPtr)
    (alloc : Allocator) (resizable : Bool) (device_opt : Option Device) :
    StorageImpl :=
  let fptr : Option Builder :=
    match device_opt with
    | some d => GetStorageImplCreate reg d.deviceType
    | none => none
  match fptr with
  | some f => f size_bytes dp alloc resizable
  | none => defaultConstructStorage size_bytes dp alloc resizable

/-- Registries reachable from the initial empty registry through
successful registration calls. -/
inductive ReachableRegistry : Registry → Prop where
  | init : ReachableRegistry initRegistry
  | step {reg reg' : Registry} {t : DeviceType} {f : Builder} :
      ReachableRegistry reg → SetStorageImplCreate reg t f = .ok reg' →
      ReachableRegistry reg'

/-! Concrete example values used by the witness theorems. -/

/-- Example allocator handing out distinct non-null addresses per size. -/
def exampleAlloc : Allocator := fun n => { addr := 100 + n, isCow := false }

/-- Example buffer handle with a non-null address. -/
def exampleDataPtr : DataPtr := { addr := 77, isCow := false }

/-- Example handle in the copy-on-write-pending state. -/
def exampleCowStorage : StorageImpl :=
  { data_ptr_ := { addr := 5, isCow := true }
    size_bytes_ := 4
    allocator_ := exampleAlloc
    resizable_ := false
    has_data_ptr_check_ := true
    throw_on_mutable_data_ptr_ := false }

/-- Example handle in the read-only-strict state. -/
def exampleStrictStorage : StorageImpl :=
  { data_ptr_ := { addr := 7, isCow := false }
    size_bytes_ := 4
    allocator_ := exampleAlloc
    resizable_ := false
    has_data_ptr_check_ := true
    throw_on_mutable_data_ptr_ := true }

/-- Example handle with the throw flag set and simultaneously a
copy-on-write buffer. -/
def exampleStrictCowStorage : StorageImpl :=
  { data_ptr_ := { addr := 5, isCow := true }
    size_bytes_ := 4
    allocator_ := exampleAlloc
    resizable_ := false
    has_data_ptr_check_ := true
    throw_on_mutable_data_ptr_ := true }

/-- Example handle in the Normal state. -/
def exampleNormalStorage : StorageImpl :=
  { data_ptr_ := { addr := 9, isCow := false }
    size_bytes_ := 4
    allocator_ := exampleAlloc
    resizable_ := true
    has_data_ptr_check_ := false
    throw_on_mutable_data_ptr_ := false }

/-- Example world whose fresh-address bound is above all example buffer
addresses. -/
def exampleWorld : World := { nextAddr := 10, materializeCount := 0 }

/-- Claim C1: for a wellformed handle in the copy-on-write-pending mode
whose buffer address respects the fresh-address bound, one mutable
accessor call materializes: it succeeds, the returned address differs
from the original buffer address, the access mode becomes Normal,
exactly one materialization is performed, and a second mutable accessor
call returns the same buffer with no further state change and no
re-materialization; `mutable_data` agrees with `mutable_data_ptr`. -/
theorem c1_cow_materializes_exactly_once (s : StorageImpl) (w : World)
    (hwf : s.wellformed)
    (hmode : s.accessMode = .CopyOnWritePending)
    (hfresh : s.data_ptr_.addr < w.nextAddr) :
    ∃ p s' w',
      s.mutable_data_ptr w = (.ok p, s', w') ∧
      p = s'.data_ptr_ ∧
      p.addr ≠ s.data_ptr_.addr ∧
      s'.accessMode = .Normal ∧
      w'.materializeCount = w.materializeCount + 1 ∧
      s'.mutable_data_ptr w' = (.ok s'.data_ptr_, s', w') ∧
      s.mutable_data w = (.ok p.addr, s', w') ∧
      s'.mutable_data w' = (.ok s'.data_ptr_.addr, s', w') := by
  obtain ⟨⟨a, cow⟩, sz, al, rz, hc, thr⟩ := s
  cases thr with
  | true => simp [StorageImpl.accessMode] at hmode
  | false =>
    cases cow with
    | false => simp [StorageImpl.accessMode] at hmode
    | true =>
      have hhc : hc = true := by simpa [StorageImpl.wellformed] using hwf
      subst hhc
      refine ⟨{ addr := w.nextAddr, isCow := false },
        { data_ptr_ := { addr := w.nextAddr, isCow := false }
          size_bytes_ := sz
          allocator_ := al
          resizable_ := rz
          has_data_ptr_check_ := false
          throw_on_mutable_data_ptr_ := false },
        { nextAddr := w.nextAddr + 1, materializeCount := w.materializeCount + 1 },
        rfl, rfl, ?_, rfl, rfl, rfl, rfl, rfl⟩
      simp only [StorageImpl.accessMode] at hfresh ⊢
      omega

/-- Claim C1 witness: the theorem applied to the concrete
copy-on-write-pending example handle. -/
theorem c1_cow_materializes_exactly_once_witness :
    ∃ p s' w',
      exampleCowStorage.mutable_data_ptr exampleWorld = (.ok p, s', w') ∧
      p = s'.data_ptr_ ∧
      p.addr ≠ exampleCowStorage.data_ptr_.addr ∧
      s'.accessMode = .Normal ∧
      w'.materializeCount = exampleWorld.materializeCount + 1 ∧
      s'.mutable_data_ptr w' = (.ok s'.data_ptr_, s', w') ∧
      exampleCowStorage.mutable_data exampleWorld = (.ok p.addr, s', w') ∧
      s'.mutable_data w' = (.ok s'.data_ptr_.addr, s', w') :=
  c1_cow_materializes_exactly_once exampleCowStorage exampleWorld
    (by decide) (by decide) (by decide)

/-- Claim C2: for a wellformed handle in the read-only-strict mode, the
read accessors succeed and return the current buffer unchanged, while
both mutable accessors fail with `NullDataAccessError` and leave handle
and world untouched, so the outcome is independent of call order. -/
theorem c2_readonly_strict_reads_ok_mutable_fails (s : StorageImpl) (w : World)
    (hwf : s.wellformed)
    (hmode : s.accessMode = .ReadOnlyStrict) :
    s.data_ptr = (s.data_ptr_, s) ∧
    s.data = (s.data_ptr_.get, s) ∧
    s.mutable_data_ptr w = (.error .NullDataAccessError, s, w) ∧
    s.mutable_data w = (.error .NullDataAccessError, s, w) := by
  obtain ⟨⟨a, cow⟩, sz, al, rz, hc, thr⟩ := s
  cases thr with
  | false =>
    cases cow <;> simp [StorageImpl.accessMode] at hmode
  | true =>
    have hhc : hc = true := by simpa [StorageImpl.wellformed] using hwf
    subst hhc
    exact ⟨rfl, rfl, rfl, rfl⟩

/-- Claim C2 witness: the theorem applied to the concrete
read-only-strict example handle. -/
theorem c2_readonly_strict_reads_ok_mutable_fails_witness :
    exampleStrictStorage.data_ptr = (exampleStrictStorage.data_ptr_, exampleStrictStorage) ∧
    exampleStrictStorage.data = (exampleStrictStorage.data_ptr_.get, exampleStrictStorage) ∧
    exampleStrictStorage.mutable_data_ptr exampleWorld
      = (.error .NullDataAccessError, exampleStrictStorage, exampleWorld) ∧
    exampleStrictStorage.mutable_data exampleWorld
      = (.error .NullDataAccessError, exampleStrictStorage, exampleWorld) :=
  c2_readonly_strict_reads_ok_mutable_fails exampleStrictStorage exampleWorld
    (by decide) (by decide)

/-- Claim C3: for a handle in the Normal mode, the mutable accessors
return the same buffer and address as the read accessors and perform no
buffer replacement, no flag change and no allocation. -/
theorem c3_normal_mutable_matches_read (s : StorageImpl) (w : World)
    (hmode : s.accessMode = .Normal) :
    s.mutable_data_ptr w = (.ok (s.data_ptr).1, s, w) ∧
    s.mutable_data w = (.ok (s.data).1, s, w) := by
  obtain ⟨⟨a, cow⟩, sz, al, rz, hc, thr⟩ := s
  cases thr with
  | true => simp [StorageImpl.accessMode] at hmode
  | false =>
    cases cow with
    | true => simp [StorageImpl.accessMode] at hmode
    | false => cases hc <;> exact ⟨rfl, rfl⟩

/-- Claim C3 witness: the theorem applied to the concrete Normal-mode
example handle. -/
theorem c3_normal_mutable_matches_read_witness :
    exampleNormalStorage.mutable_data_ptr exampleWorld
      = (.ok (exampleNormalStorage.data_ptr).1, exampleNormalStorage, exampleWorld) ∧
    exampleNormalStorage.mutable_data exampleWorld
      = (.ok (exampleNormalStorage.data).1, exampleNormalStorage, exampleWorld) :=
  c3_normal_mutable_matches_read exampleNormalStorage exampleWorld (by decide)

/-- Claim C8: for every handle in every access mode, the read accessors
succeed, return the current buffer (respectively its address), and leave
the handle unchanged; among the accessors only the mutable ones can thus
mutate the flags or replace the owned buffer. -/
theorem c8_read_accessors_no_side_effect (s : StorageImpl) :
    (s.data_ptr).1 = s.data_ptr_ ∧ (s.data_ptr).2 = s ∧
    (s.data).1 = s.data_ptr_.get ∧ (s.data).2 = s :=
  ⟨rfl, rfl, rfl, rfl⟩

/-- Claim C9: whenever the check guard and the throw flag are both set,
the mutable accessors raise `NullDataAccessError` before the
copy-on-write branch runs, so no materialization is performed even if
the buffer is simultaneously marked copy-on-write. -/
theorem c9_throw_checked_before_cow (s : StorageImpl) (w : World)
    (hc : s.has_data_ptr_check_ = true)
    (ht : s.throw_on_mutable_data_ptr_ = true) :
    s.mutable_data_ptr w = (.error .NullDataAccessError, s, w) ∧
    (s.mutable_data_ptr w).2.2.materializeCount = w.materializeCount ∧
    s.mutable_data w = (.error .NullDataAccessError, s, w) ∧
    (s.mutable_data w).2.2.materializeCount = w.materializeCount := by
  obtain ⟨dp, sz, al, rz, c, t⟩ := s
  simp only at hc ht
  subst hc; subst ht
  exact ⟨rfl, rfl, rfl, rfl⟩

/-- Claim C9 witness: the theorem applied to a concrete handle that has
the throw flag set and a copy-on-write buffer at the same time. -/
theorem c9_throw_checked_before_cow_witness :
    exampleStrictCowStorage.mutable_data_ptr exampleWorld
      = (.error .NullDataAccessError, exampleStrictCowStorage, exampleWorld) ∧
    (exampleStrictCowStorage.mutable_data_ptr exampleWorld).2.2.materializeCount
      = exampleWorld.materializeCount ∧
    exampleStrictCowStorage.mutable_data exampleWorld
      = (.error .NullDataAccessError, exampleStrictCowStorage, exampleWorld) ∧
    (exampleStrictCowStorage.mutable_data exampleWorld).2.2.materializeCount
      = exampleWorld.materializeCount :=
  c9_throw_checked_before_cow exampleStrictCowStorage exampleWorld rfl rfl

/-- Example custom builder returning a distinguishable sentinel handle
(the declared size is shifted by one). -/
def exampleBuilder : Builder :=
  fun sz dp al rz => StorageImpl.mkWithBuffer (sz + 1) dp al rz

/-- Second example builder, used for the duplicate-registration check. -/
def exampleBuilder2 : Builder :=
  fun sz dp al rz => StorageImpl.mkWithBuffer (sz + 2) dp al rz

/-- Example registry with a builder registered for the PrivateUse1
domain only. -/
def exampleReg : Registry :=
  fun t => if t = .privateUse1 then some exampleBuilder else none

/-- Claim C4: the factory with no target device never consults the
registry (its result is the same for every registry) and uses default
construction; with a device whose domain has a registered builder it
returns exactly that builder result; with a device whose domain has no
builder it falls through to default construction. -/
theorem c4_factory_dispatch (reg : Registry) (sz : Nat) (dp : DataPtr)
    (al : Allocator) (rz : Bool) :
    (∀ reg2 : Registry,
      make_storage_impl reg sz dp al rz none = make_storage_impl reg2 sz dp al rz none) ∧
    make_storage_impl reg sz dp al rz none = defaultConstructStorage sz dp al rz ∧
    (∀ (d : Device) (f : Builder), GetStorageImplCreate reg d.deviceType = some f →
      make_storage_impl reg sz dp al rz (some d) = f sz dp al rz) ∧
    (∀ d : Device, GetStorageImplCreate reg d.deviceType = none →
      make_storage_impl reg sz dp al rz (some d) = defaultConstructStorage sz dp al rz) := by
  refine ⟨fun reg2 => rfl, rfl, ?_, ?_⟩
  · intro d f h
    simp [make_storage_impl, h]
  · intro d h
    simp [make_storage_impl, h]

/-- Claim C4 witness: on the example registry, a PrivateUse1 device
dispatches to the sentinel builder, no device and a CPU device both use
default construction. -/
theorem c4_factory_dispatch_witness :
    make_storage_impl exampleReg 4 exampleDataPtr exampleAlloc true (some ⟨.privateUse1⟩)
      = exampleBuilder 4 exampleDataPtr exampleAlloc true ∧
    make_storage_impl exampleReg 4 exampleDataPtr exampleAlloc true none
      = defaultConstructStorage 4 exampleDataPtr exampleAlloc true ∧
    make_storage_impl exampleReg 4 exampleDataPtr exampleAlloc true (some ⟨.cpu⟩)
      = defaultConstructStorage 4 exampleDataPtr exampleAlloc true :=
  ⟨(c4_factory_dispatch exampleReg 4 exampleDataPtr exampleAlloc true).2.2.1
      ⟨.privateUse1⟩ exampleBuilder rfl,
   (c4_factory_dispatch exampleReg 4 exampleDataPtr exampleAlloc true).2.1,
   (c4_factory_dispatch exampleReg 4 exampleDataPtr exampleAlloc true).2.2.2
      ⟨.cpu⟩ rfl⟩

/-- Claim C5: a factory call with a pre-supplied (non-null) buffer that
is not dispatched to a custom builder produces a handle owning exactly
that buffer, rather than one obtained from the allocator. -/
theorem c5_presupplied_buffer_adopted (reg : Registry) (sz : Nat) (dp : DataPtr)
    (al : Allocator) (rz : Bool) (device_opt : Option Device)
    (hnb : ∀ d : Device, device_opt = some d → GetStorageImplCreate reg d.deviceType = none)
    (hdp : dp.addr ≠ 0) :
    make_storage_impl reg sz dp al rz device_opt
      = StorageImpl.mkWithBuffer sz dp al rz ∧
    (make_storage_impl reg sz dp al rz device_opt).data_ptr_ = dp := by
  have hdef : make_storage_impl reg sz dp al rz device_opt
      = defaultConstructStorage sz dp al rz := by
    cases device_opt with
    | none => rfl
    | some d => simp [make_storage_impl, hnb d rfl]
  rw [hdef]
  constructor
  · simp [defaultConstructStorage, hdp]
  · simp [defaultConstructStorage, hdp, StorageImpl.mkWithBuffer]

/-- Claim C5 witness: the theorem applied with no target device and the
concrete non-null example buffer. -/
theorem c5_presupplied_buffer_adopted_witness :
    make_storage_impl exampleReg 4 exampleDataPtr exampleAlloc true none
      = StorageImpl.mkWithBuffer 4 exampleDataPtr exampleAlloc true ∧
    (make_storage_impl exampleReg 4 exampleDataPtr exampleAlloc true none).data_ptr_
      = exampleDataPtr :=
  c5_presupplied_buffer_adopted exampleReg 4 exampleDataPtr exampleAlloc true none
    (fun _ h => nomatch h) (by decide)

/-- Claim C10: a factory call whose pre-supplied buffer holds the null
address, and that is not dispatched to a custom builder, constructs the
handle through the allocator-backed path instead of adopting the null
buffer. -/
theorem c10_null_buffer_uses_allocator (reg : Registry) (sz : Nat) (dp : DataPtr)
    (al : Allocator) (rz : Bool) (device_opt : Option Device)
    (hnb : ∀ d : Device, device_opt = some d → GetStorageImplCreate reg d.deviceType = none)
    (hdp : dp.addr = 0) :
    make_storage_impl reg sz dp al rz device_opt = StorageImpl.mkAlloc sz al rz ∧
    (make_storage_impl reg sz dp al rz device_opt).data_ptr_ = al sz := by
  have hdef : make_storage_impl reg sz dp al rz device_opt
      = defaultConstructStorage sz dp al rz := by
    cases device_opt with
    | none => rfl
    | some d => simp [make_storage_impl, hnb d rfl]
  rw [hdef]
  constructor
  · simp [defaultConstructStorage, hdp]
  · simp [defaultConstructStorage, hdp, StorageImpl.mkAlloc, StorageImpl.mkWithBuffer]

/-- Claim C10 witness: the theorem applied to a concrete null buffer
handle; the result owns the buffer the allocator returns for the
requested size. -/
theorem c10_null_buffer_uses_allocator_witness :
    make_storage_impl exampleReg 4 { addr := 0, isCow := false } exampleAlloc true none
      = StorageImpl.mkAlloc 4 exampleAlloc true ∧
    (make_storage_impl exampleReg 4 { addr := 0, isCow := false } exampleAlloc true none).data_ptr_
      = exampleAlloc 4 :=
  c10_null_buffer_uses_allocator exampleReg 4 { addr := 0, isCow := false }
    exampleAlloc true none (fun _ h => nomatch h) rfl

/-- Claim C6: on a registry whose PrivateUse1 slot is empty, registering
a builder for PrivateUse1 succeeds; on the resulting registry a second
registration for the same domain fails with `AlreadyRegisteredError`,
and lookup still returns the original builder. -/
theorem c6_register_once_then_duplicate_fails (reg : Registry) (f f2 : Builder)
    (h : GetStorageImplCreate reg .privateUse1 = none) :
    ∃ reg' : Registry,
      SetStorageImplCreate reg .privateUse1 f = .ok reg' ∧
      GetStorageImplCreate reg' .privateUse1 = some f ∧
      SetStorageImplCreate reg' .privateUse1 f2 = .error .AlreadyRegisteredError := by
  have h' : reg DeviceType.privateUse1 = none := h
  refine ⟨fun u => if u = .privateUse1 then some f else reg u, ?_, ?_, ?_⟩
  · simp [SetStorageImplCreate, DeviceTypeAllowList, h']
  · simp [GetStorageImplCreate]
  · simp [SetStorageImplCreate, DeviceTypeAllowList]

/-- Claim C6 witness: the theorem applied to the initial empty registry
with two concrete builders. -/
theorem c6_register_once_then_duplicate_fails_witness :
    ∃ reg' : Registry,
      SetStorageImplCreate initRegistry .privateUse1 exampleBuilder = .ok reg' ∧
      GetStorageImplCreate reg' .privateUse1 = some exampleBuilder ∧
      SetStorageImplCreate reg' .privateUse1 exampleBuilder2
        = .error .AlreadyRegisteredError :=
  c6_register_once_then_duplicate_fails initRegistry exampleBuilder exampleBuilder2 rfl

/-- Claim C7: registering a builder for any domain outside the allowlist
always fails with `DomainNotAllowedError`, and on every registry
reachable from the initial one by successful registrations, lookup for
such a domain returns the empty slot. -/
theorem c7_disallowed_domain_never_registers (t : DeviceType)
    (ht : t ∉ DeviceTypeAllowList) :
    (∀ (reg : Registry) (f : Builder),
      SetStorageImplCreate reg t f = .error .DomainNotAllowedError) ∧
    (∀ reg : Registry, ReachableRegistry reg → GetStorageImplCreate reg t = none) := by
  constructor
  · intro reg f
    simp [SetStorageImplCreate, ht]
  · intro reg hreach
    induction hreach with
    | init => rfl
    | @step reg0 reg1 t1 f1 hr hset ih =>
      unfold SetStorageImplCreate at hset
      by_cases hmem : t1 ∈ DeviceTypeAllowList
      · rw [if_pos hmem] at hset
        cases hq : reg0 t1 with
        | some g => rw [hq] at hset; exact absurd hset (by simp)
        | none =>
          rw [hq] at hset
          have hreg1 : reg1 = fun u => if u = t1 then some f1 else reg0 u := by
            have := Except.ok.inj hset
            exact this.symm
          have hne : t ≠ t1 := fun he => ht (he ▸ hmem)
          show reg1 t = none
          rw [hreg1]
          simp only [if_neg hne]
          exact ih
      · rw [if_neg hmem] at hset
        exact absurd hset (by simp)

/-- Claim C7 witness: the theorem applied to the CPU domain, which is
outside the allowlist, on the initial registry. -/
theorem c7_disallowed_domain_never_registers_witness :
    SetStorageImplCreate initRegistry .cpu exampleBuilder
      = .error .DomainNotAllowedError ∧
    GetStorageImplCreate initRegistry .cpu = none :=
  ⟨(c7_disallowed_domain_never_registers .cpu (by decide)).1 initRegistry exampleBuilder,
   (c7_disallowed_domain_never_registers .cpu (by decide)).2 initRegistry
     ReachableRegistry.init⟩

end C10Storage
